import Mathlib

/-!
Shallow embedding of the CrudeTrack application (src/app.py): a CRUD layer
over five SQLite tables (users, products, orders, shipment_tracking,
product_interactions), with bcrypt password hashing modelled abstractly and
the relevant UI submission handlers (registration form, order form) modelled
as the guard-then-call sequences they perform.

The database is a record of row lists plus the AUTOINCREMENT counters of each
table and a logical clock standing for datetime.now() (each call to now()
reads the clock and advances it, so successive timestamps strictly increase).
Each data function of app.py becomes a pure function from a database state
(and the explicit random salt that bcrypt.gensalt() would produce) to a new
database state and/or result.
-/

/-- Abstract model of a bcrypt hash: bcrypt.hashpw(password, gensalt()) keeps
the salt inside the hash, and bcrypt.checkpw succeeds exactly on the original
password.  The salt is explicit so identical passwords with different salts
give different hashes, as the spec requires. -/
structure BcryptHash where
  salt : Nat
  pw : String
deriving DecidableEq

/-- app.py hash_password: bcrypt.hashpw with a fresh salt (passed explicitly). -/
def hash_password (password : String) (salt : Nat) : BcryptHash :=
  ⟨salt, password⟩

/-- app.py check_password: bcrypt.checkpw, true iff the password matches the
one the stored hash was built from. -/
def check_password (hashed_password : BcryptHash) (user_password : String) : Bool :=
  hashed_password.pw == user_password

/-- Row of the users table. -/
structure User where
  id : Nat
  username : String
  password_hash : BcryptHash
  role : String
deriving DecidableEq

/-- Row of the products table. -/
structure Product where
  id : Nat
  name : String
  description : String
  source_port : String
  image_url : String
deriving DecidableEq

/-- Row of the orders table.  quantity_barrels is an SQLite INTEGER, so an
unbounded signed integer. -/
structure Order where
  id : Nat
  user_id : Nat
  product_id : Nat
  destination_city : String
  quantity_barrels : Int
  order_date : Nat
  status : String
deriving DecidableEq

/-- Row of the shipment_tracking table. -/
structure TrackingEvent where
  id : Nat
  order_id : Nat
  current_location : String
  timestamp : Nat
deriving DecidableEq

/-- Row of the product_interactions table. -/
structure InteractionEvent where
  id : Nat
  user_id : Nat
  product_id : Nat
  view_timestamp : Nat
deriving DecidableEq

/-- The whole SQLite database: the five tables, their AUTOINCREMENT counters
(SQLite assigns ids 1, 2, ... in insertion order) and the logical clock
standing for datetime.now(). -/
structure DB where
  users : List User
  products : List Product
  orders : List Order
  tracking : List TrackingEvent
  interactions : List InteractionEvent
  nextUserId : Nat
  nextProductId : Nat
  nextOrderId : Nat
  nextTrackingId : Nat
  nextInteractionId : Nat
  clock : Nat
deriving DecidableEq

/-- A freshly created database file: empty tables, AUTOINCREMENT counters at 1. -/
def emptyDB : DB :=
  ⟨[], [], [], [], [], 1, 1, 1, 1, 1, 0⟩

/-- The three reference products seeded by setup_database, with ids assigned
from the products AUTOINCREMENT counter. -/
def seedProducts (firstId : Nat) : List Product :=
  [⟨firstId, "Brent Crude",
    "A major trading classification of sweet light crude oil from the North Sea. It is used to price two-thirds of the world\x27s internationally traded crude oil supplies.",
    "Sullom Voe, UK",
    "https://images.unsplash.com/photo-1629115124174-a82d854344a2?q=80&w=1964&auto=format&fit=crop"⟩,
   ⟨firstId + 1, "WTI Crude",
    "West Texas Intermediate (WTI) is a light, sweet crude oil that is the benchmark for North American oil. It is sourced primarily from the Permian Basin.",
    "Cushing, OK, USA",
    "https://images.unsplash.com/photo-1622384214138-2cf917637845?q=80&w=1974&auto=format&fit=crop"⟩,
   ⟨firstId + 2, "Dubai Crude",
    "Also known as Fateh, this is a light sour crude oil extracted from Dubai. It is used as a price benchmark for exports of crude oil from the Persian Gulf to Asia.",
    "Fateh Terminal, Dubai",
    "https://images.unsplash.com/photo-1623861226131-45c1a742784d?q=80&w=1974&auto=format&fit=crop"⟩]

/-- First seeding block of setup_database: INSERT the three reference
products when SELECT count(*) FROM products is 0. -/
def seedProductsIfEmpty (db : DB) : DB :=
  if db.products.length = 0 then
    { db with
      products := db.products ++ seedProducts db.nextProductId
      nextProductId := db.nextProductId + 3 }
  else db

/-- Second seeding block of setup_database: INSERT the admin account when
SELECT count(*) FROM users WHERE username = "admin" is 0. -/
def seedAdminIfMissing (db : DB) (adminSalt : Nat) : DB :=
  if (db.users.filter (fun u => u.username == "admin")).length = 0 then
    { db with
      users := db.users ++
        [⟨db.nextUserId, "admin", hash_password "admin123" adminSalt, "admin"⟩]
      nextUserId := db.nextUserId + 1 }
  else db

/-- app.py setup_database: creates the tables (always present in this model),
then runs its two seeding blocks in source order — products first, admin
second.  Seeds the three reference products when the products table is
empty, and the admin account (username "admin", password "admin123", role
"admin") when no user named "admin" exists.  adminSalt is the salt
bcrypt.gensalt() would draw for the admin password hash. -/
def setup_database (db : DB) (adminSalt : Nat) : DB :=
  seedAdminIfMissing (seedProductsIfEmpty db) adminSalt

/-- app.py register_user: INSERT INTO users; the UNIQUE constraint on username
makes the insert raise IntegrityError when the username is already present, in
which case the function returns False and commits nothing.  The Python
function defaults role to "customer"; callers that omit it pass "customer"
here.  salt is the salt bcrypt.gensalt() draws for this password. -/
def register_user (db : DB) (username password : String) (salt : Nat)
    (role : String) : DB × Bool :=
  if db.users.any (fun u => u.username == username) then (db, false)
  else
    ({ db with
        users := db.users ++
          [⟨db.nextUserId, username, hash_password password salt, role⟩]
        nextUserId := db.nextUserId + 1 }, true)

/-- The user summary dict returned by validate_login. -/
structure UserSummary where
  id : Nat
  username : String
  role : String
deriving DecidableEq

/-- app.py validate_login: SELECT * FROM users WHERE username = ? (fetchone
returns the first matching row), then bcrypt check; returns the summary on
success and None on missing user or mismatch. -/
def validate_login (db : DB) (username password : String) : Option UserSummary :=
  match db.users.find? (fun u => u.username == username) with
  | none => none
  | some u =>
      if check_password u.password_hash password then
        some ⟨u.id, u.username, u.role⟩
      else none

/-- app.py get_all_products: SELECT * FROM products (insertion order). -/
def get_all_products (db : DB) : List Product :=
  db.products

/-- app.py log_product_interaction: INSERT INTO product_interactions with the
current timestamp. -/
def log_product_interaction (db : DB) (user_id product_id : Nat) : DB :=
  { db with
    interactions := db.interactions ++
      [⟨db.nextInteractionId, user_id, product_id, db.clock⟩]
    nextInteractionId := db.nextInteractionId + 1
    clock := db.clock + 1 }

/-- The fixed message of the tracking event inserted at order placement. -/
def placementMessage : String :=
  "Order confirmed. Awaiting dispatch from terminal."

/-- app.py place_order: inserts the Order row (status "Placed", current
timestamp), reads lastrowid, inserts the initial shipment_tracking row with
the fixed confirmation message, and commits once, so both rows become visible
together.  Returns the new database and the order id. -/
def place_order (db : DB) (user_id product_id : Nat) (destination : String)
    (quantity : Int) : DB × Nat :=
  let order_id := db.nextOrderId
  let db1 : DB :=
    { db with
      orders := db.orders ++
        [⟨order_id, user_id, product_id, destination, quantity, db.clock, "Placed"⟩]
      nextOrderId := order_id + 1
      clock := db.clock + 1 }
  let db2 : DB :=
    { db1 with
      tracking := db1.tracking ++
        [⟨db1.nextTrackingId, order_id, placementMessage, db1.clock⟩]
      nextTrackingId := db1.nextTrackingId + 1
      clock := db1.clock + 1 }
  (db2, order_id)

/-- Descending order on a Nat-valued key: the relation used to model the SQL
ORDER BY ... DESC clauses. -/
def keyDesc {α : Type} (key : α → Nat) (a b : α) : Prop :=
  key b ≤ key a

instance {α : Type} (key : α → Nat) : DecidableRel (keyDesc key) :=
  fun a b => Nat.decLe (key b) (key a)

instance {α : Type} (key : α → Nat) : IsTotal α (keyDesc key) :=
  ⟨fun a b => Nat.le_total (key b) (key a)⟩

instance {α : Type} (key : α → Nat) : IsTrans α (keyDesc key) :=
  ⟨fun _ _ _ h1 h2 => Nat.le_trans h2 h1⟩

/-- Row returned by get_user_orders. -/
structure UserOrderRow where
  id : Nat
  product_name : String
  destination_city : String
  quantity_barrels : Int
  order_date : Nat
  status : String
deriving DecidableEq

/-- app.py get_user_orders: orders JOIN products ON o.product_id = p.id
(product ids are unique, so the lookup is find?), WHERE o.user_id = ?,
ORDER BY o.order_date DESC. -/
def get_user_orders (db : DB) (user_id : Nat) : List UserOrderRow :=
  List.insertionSort (keyDesc UserOrderRow.order_date)
    (db.orders.filterMap (fun o =>
      if o.user_id = user_id then
        (db.products.find? (fun p => p.id == o.product_id)).map (fun p =>
          ⟨o.id, p.name, o.destination_city, o.quantity_barrels, o.order_date, o.status⟩)
      else none))

/-- Row returned by get_tracking_info. -/
structure TrackRow where
  current_location : String
  timestamp : Nat
deriving DecidableEq

/-- app.py get_tracking_info: SELECT current_location, timestamp FROM
shipment_tracking WHERE order_id = ? ORDER BY timestamp DESC. -/
def get_tracking_info (db : DB) (order_id : Nat) : List TrackRow :=
  List.insertionSort (keyDesc TrackRow.timestamp)
    ((db.tracking.filter (fun e => e.order_id == order_id)).map (fun e =>
      ⟨e.current_location, e.timestamp⟩))

/-- Row returned by get_all_orders_for_admin. -/
structure AdminOrderRow where
  id : Nat
  username : String
  product_name : String
  destination_city : String
  quantity_barrels : Int
  order_date : Nat
  status : String
deriving DecidableEq

/-- app.py get_all_orders_for_admin: orders JOIN users JOIN products (ids are
unique, so the lookups are find?), ORDER BY o.order_date DESC. -/
def get_all_orders_for_admin (db : DB) : List AdminOrderRow :=
  List.insertionSort (keyDesc AdminOrderRow.order_date)
    (db.orders.filterMap (fun o =>
      match db.users.find? (fun u => u.id == o.user_id),
            db.products.find? (fun p => p.id == o.product_id) with
      | some u, some p =>
          some ⟨o.id, u.username, p.name, o.destination_city, o.quantity_barrels,
                o.order_date, o.status⟩
      | _, _ => none))

/-- The names of the joined view rows of get_product_interaction_analytics:
product_interactions JOIN products ON pi.product_id = p.id, projected to
p.name.  GROUP BY p.name / COUNT(pi.id) then counts occurrences per name. -/
def joinedViewNames (db : DB) : List String :=
  db.interactions.filterMap (fun e =>
    (db.products.find? (fun p => p.id == e.product_id)).map (fun p => p.name))

/-- app.py get_product_interaction_analytics: SELECT p.name, COUNT(pi.id)
FROM product_interactions JOIN products GROUP BY p.name
ORDER BY view_count DESC. -/
def get_product_interaction_analytics (db : DB) : List (String × Nat) :=
  List.insertionSort (keyDesc (fun r : String × Nat => r.2))
    ((joinedViewNames db).dedup.map (fun n => (n, (joinedViewNames db).count n)))

/-- First write of update_shipment_status: INSERT INTO shipment_tracking with
the given message and the current timestamp. -/
def appendTrackingRow (db : DB) (order_id : Nat) (msg : String) : DB :=
  { db with
    tracking := db.tracking ++ [⟨db.nextTrackingId, order_id, msg, db.clock⟩]
    nextTrackingId := db.nextTrackingId + 1
    clock := db.clock + 1 }

/-- Second write of update_shipment_status: UPDATE orders SET status = ?
WHERE id = ? (updates every row whose id matches; a missing id updates
nothing and raises no error). -/
def setOrderStatus (db : DB) (order_id : Nat) (new_status : String) : DB :=
  { db with orders := db.orders.map (fun o =>
      if o.id = order_id then { o with status := new_status } else o) }

/-- The descriptive tracking message built by update_shipment_status. -/
def trackingMessage (new_status new_location : String) : String :=
  "Status changed to \x27" ++ new_status ++ "\x27: " ++ new_location

/-- app.py update_shipment_status: first inserts the tracking event carrying
the descriptive message, then updates the master order status, then commits. -/
def update_shipment_status (db : DB) (order_id : Nat)
    (new_location new_status : String) : DB :=
  setOrderStatus (appendTrackingRow db order_id (trackingMessage new_status new_location))
    order_id new_status

/-- app.py customer_portal, order form handler: the quantity widget
(st.number_input, min_value=100) only yields quantities of at least 100; on
submit the handler warns and does nothing when the destination is empty
(Python "if not destination"), otherwise calls place_order. -/
def customer_portal_place_order (db : DB) (user_id product_id : Nat)
    (destination : String) (quantity : Int) : DB × Option Nat :=
  if destination = "" then (db, none)
  else
    let res := place_order db user_id product_id destination quantity
    (res.1, some res.2)

/-- app.py login_register_page, registration form handler: warns and does
nothing when username or password is empty; otherwise calls
register_user(new_username, new_password), which defaults role to
"customer" — the form never supplies a role. -/
def portal_register (db : DB) (new_username new_password : String)
    (salt : Nat) : DB :=
  if new_username = "" ∨ new_password = "" then db
  else (register_user db new_username new_password salt "customer").1

/-- One registration through the public registration surface. -/
def RegStep (db db2 : DB) : Prop :=
  ∃ u p s, db2 = portal_register db u p s

/-- Substring membership on char lists: strHasSub s pat is true when pat
occurs contiguously in s (models Python str containment for the tracking
message checks). -/
def strStartsWith : List Char → List Char → Bool
  | [], _ => true
  | _ :: _, [] => false
  | a :: as, b :: bs => a == b && strStartsWith as bs

def strHasSub : List Char → List Char → Bool
  | [], pat => strStartsWith pat []
  | a :: rest, pat => strStartsWith pat (a :: rest) || strHasSub rest pat

/-- String containment: pat occurs contiguously in s. -/
def strContains (s pat : String) : Bool :=
  strHasSub s.data pat.data

/-- Concrete database states used to instantiate the theorems: a fresh
setup, one registered customer, one placed order. -/
def db0 : DB := setup_database emptyDB 0

def dbA : DB := portal_register db0 "alice" "pw1" 1

def dbO : DB := (place_order dbA 2 1 "Rotterdam" 500).1

/-- Concrete rows of dbO used to instantiate the theorems. -/
def orderO : Order := ⟨1, 2, 1, "Rotterdam", 500, 0, "Placed"⟩

def aliceU : User := ⟨2, "alice", hash_password "pw1" 1, "customer"⟩

def brentP : Product := (seedProducts 1).getD 0 ⟨1, "", "", "", ""⟩

def wtiP : Product := (seedProducts 1).getD 1 ⟨2, "", "", "", ""⟩

/-- dbO with two recorded views of Brent Crude and one of WTI Crude. -/
def dbV : DB :=
  log_product_interaction
    (log_product_interaction (log_product_interaction dbO 2 1) 2 2) 2 1

/-! ### Helper lemmas -/

theorem list_filter_nil_of_neg {α : Type} (p : α → Bool) :
    ∀ (l : List α), (∀ a ∈ l, p a = false) → l.filter p = []
  | [], _ => rfl
  | a :: l, h => by
    have ha := h a (List.mem_cons_self a l)
    simp only [List.filter, ha]
    exact list_filter_nil_of_neg p l (fun x hx => h x (List.mem_cons_of_mem a hx))

theorem list_map_eq_self {α : Type} (f : α → α) :
    ∀ (l : List α), (∀ a ∈ l, f a = a) → l.map f = l
  | [], _ => rfl
  | a :: l, h => by
    have ha := h a (List.mem_cons_self a l)
    simp only [List.map, ha]
    exact congrArg _ (list_map_eq_self f l (fun x hx => h x (List.mem_cons_of_mem a hx)))

theorem strStartsWith_append :
    ∀ (p t : List Char), strStartsWith p (p ++ t) = true
  | [], _ => rfl
  | a :: as, t => by
    show (a == a && strStartsWith as (as ++ t)) = true
    rw [beq_self_eq_true, Bool.true_and, strStartsWith_append as t]

theorem strHasSub_of_startsWith (pat : List Char) :
    ∀ (s : List Char), strStartsWith pat s = true → strHasSub s pat = true
  | [], h => h
  | a :: rest, h => by
    show (strStartsWith pat (a :: rest) || strHasSub rest pat) = true
    rw [h, Bool.true_or]

theorem strHasSub_extract (pat post : List Char) :
    ∀ (pre : List Char), strHasSub (pre ++ (pat ++ post)) pat = true
  | [] => strHasSub_of_startsWith pat _ (strStartsWith_append pat post)
  | a :: as => by
    show (strStartsWith pat (a :: (as ++ (pat ++ post))) ||
        strHasSub (as ++ (pat ++ post)) pat) = true
    rw [strHasSub_extract pat post as, Bool.or_true]

theorem str_data_append (a b : String) : (a ++ b).data = a.data ++ b.data :=
  rfl

theorem strHasSub_parts (s pre pat post : List Char) (h : s = pre ++ pat ++ post) :
    strHasSub s pat = true := by
  rw [h, List.append_assoc]
  exact strHasSub_extract pat post pre

/-- The tracking message built by update_shipment_status contains both the
new location text and the new status text. -/
theorem trackingMessage_contains (new_status new_location : String) :
    strContains (trackingMessage new_status new_location) new_location = true ∧
      strContains (trackingMessage new_status new_location) new_status = true := by
  constructor
  · exact strHasSub_parts _ ("Status changed to \x27" ++ new_status ++ "\x27: ").data
      new_location.data [] (by simp [trackingMessage, strContains, str_data_append])
  · exact strHasSub_parts _ "Status changed to \x27".data new_status.data
      ("\x27: " ++ new_location).data (by simp [trackingMessage, strContains, str_data_append])

/-! ### Claim theorems -/

/-- C3: if a user with username u already exists, register(u, p) fails with
the uniqueness conflict (returns false), the database is unchanged, and in
particular the user count is unchanged and no user row is inserted. -/
theorem register_user_duplicate_rejected (db : DB) (uname pw role : String)
    (salt : Nat) (h : ∃ u ∈ db.users, u.username = uname) :
    register_user db uname pw salt role = (db, false) ∧
      (register_user db uname pw salt role).1.users.length = db.users.length := by
  have hany : db.users.any (fun u => u.username == uname) = true := by
    rcases h with ⟨u, hu, he⟩
    exact List.any_eq_true.mpr ⟨u, hu, by simpa using he⟩
  refine ⟨?_, ?_⟩ <;> simp [register_user, hany]

/-- Witness for C3 at a concrete state: "alice" is already registered in dbA,
so a second registration is rejected without a side effect. -/
theorem register_user_duplicate_rejected_witness :
    (∃ u ∈ dbA.users, u.username = "alice") ∧
      (register_user dbA "alice" "othersecret" 9 "customer" = (dbA, false) ∧
        (register_user dbA "alice" "othersecret" 9 "customer").1.users.length =
          dbA.users.length) :=
  ⟨by decide, register_user_duplicate_rejected dbA "alice" "othersecret" "customer" 9
    (by decide)⟩

/-- C4: under the schema invariant that usernames are unique (users.username
is declared UNIQUE), authenticate(u, p) returns the summary {id, username,
role} of some user if and only if a user with username u exists and its
stored hash verifies against p; in particular it returns none for every wrong
password and for every non-existent username. -/
theorem validate_login_iff (db : DB) (uname pw : String) (s : UserSummary)
    (huniq : db.users.Pairwise (fun a b => a.username ≠ b.username)) :
    validate_login db uname pw = some s ↔
      ∃ u ∈ db.users, u.username = uname ∧
        check_password u.password_hash pw = true ∧
        s = ⟨u.id, u.username, u.role⟩ := by
  constructor
  · intro h
    unfold validate_login at h
    cases hf : db.users.find? (fun u => u.username == uname) with
    | none => rw [hf] at h; exact absurd h (by simp)
    | some u =>
      rw [hf] at h
      have hu : u ∈ db.users := List.mem_of_find?_eq_some hf
      have hname : u.username = uname := by
        have := List.find?_some hf
        simpa using this
      by_cases hc : check_password u.password_hash pw = true
      · refine ⟨u, hu, hname, hc, ?_⟩
        simp [hc] at h
        exact h.symm
      · rw [Bool.not_eq_true] at hc
        simp [hc] at h
  · rintro ⟨u, hu, hname, hc, rfl⟩
    unfold validate_login
    cases hf : db.users.find? (fun x => x.username == uname) with
    | none =>
      exfalso
      have := List.find?_eq_none.mp hf u hu
      simp [hname] at this
    | some v =>
      have hv : v ∈ db.users := List.mem_of_find?_eq_some hf
      have hvname : v.username = uname := by
        have := List.find?_some hf
        simpa using this
      have hvu : v = u := by
        by_contra hne
        have hsym : Symmetric (fun a b : User => a.username ≠ b.username) :=
          fun a b hab => fun he => hab he.symm
        exact (huniq.forall hsym hv hu hne) (hvname.trans hname.symm)
      rw [hvu]
      simp [hc]

/-- Witness for C4 at a concrete state: logging in as "alice" with the right
password yields her summary, and dbA satisfies the uniqueness invariant. -/
theorem validate_login_iff_witness :
    dbA.users.Pairwise (fun a b => a.username ≠ b.username) ∧
      (validate_login dbA "alice" "pw1" = some ⟨2, "alice", "customer"⟩ ↔
        ∃ u ∈ dbA.users, u.username = "alice" ∧
          check_password u.password_hash "pw1" = true ∧
          (⟨2, "alice", "customer"⟩ : UserSummary) = ⟨u.id, u.username, u.role⟩) :=
  ⟨by decide, validate_login_iff dbA "alice" "pw1" ⟨2, "alice", "customer"⟩ (by decide)⟩

/-- C1: place_order returns an order id that identifies exactly one Order row,
with status "Placed", and exactly one associated TrackingEvent, whose message
is the fixed confirmation text; both rows are inserted by the one call (and
committed together, the model returning the single post-commit state).  The
hypotheses are the AUTOINCREMENT freshness invariants of the id columns: no
existing order or tracking row already uses the id about to be assigned. -/
theorem place_order_creates_order_and_event (db : DB) (uid pid : Nat)
    (dest : String) (qty : Int)
    (hOrd : ∀ o ∈ db.orders, o.id ≠ db.nextOrderId)
    (hTr : ∀ e ∈ db.tracking, e.order_id ≠ db.nextOrderId) :
    (place_order db uid pid dest qty).1.orders.filter
        (fun o => o.id == (place_order db uid pid dest qty).2) =
      [⟨db.nextOrderId, uid, pid, dest, qty, db.clock, "Placed"⟩] ∧
    (place_order db uid pid dest qty).1.tracking.filter
        (fun e => e.order_id == (place_order db uid pid dest qty).2) =
      [⟨db.nextTrackingId, db.nextOrderId, placementMessage, db.clock + 1⟩] := by
  have h1 : db.orders.filter (fun o => o.id == db.nextOrderId) = [] :=
    list_filter_nil_of_neg _ _ (fun o ho => by simpa using hOrd o ho)
  have h2 : db.tracking.filter (fun e => e.order_id == db.nextOrderId) = [] :=
    list_filter_nil_of_neg _ _ (fun e he => by simpa using hTr e he)
  refine ⟨?_, ?_⟩ <;>
    simp [place_order, List.filter_append, h1, h2]

/-- Witness for C1 at a concrete state: placing an order in dbA (no orders or
tracking rows yet) yields exactly the Placed row and its confirmation event. -/
theorem place_order_creates_order_and_event_witness :
    (∀ o ∈ dbA.orders, o.id ≠ dbA.nextOrderId) ∧
    (∀ e ∈ dbA.tracking, e.order_id ≠ dbA.nextOrderId) ∧
    ((place_order dbA 2 1 "Rotterdam" 500).1.orders.filter
        (fun o => o.id == (place_order dbA 2 1 "Rotterdam" 500).2) =
      [⟨dbA.nextOrderId, 2, 1, "Rotterdam", 500, dbA.clock, "Placed"⟩] ∧
     (place_order dbA 2 1 "Rotterdam" 500).1.tracking.filter
        (fun e => e.order_id == (place_order dbA 2 1 "Rotterdam" 500).2) =
      [⟨dbA.nextTrackingId, dbA.nextOrderId, placementMessage, dbA.clock + 1⟩]) :=
  ⟨by decide, by decide,
    place_order_creates_order_and_event dbA 2 1 "Rotterdam" 500 (by decide) (by decide)⟩

theorem get_tracking_info_length (db : DB) (oid : Nat) :
    (get_tracking_info db oid).length =
      (db.tracking.filter (fun e => e.order_id == oid)).length := by
  unfold get_tracking_info
  rw [(List.perm_insertionSort _ _).length_eq, List.length_map]

/-- C2: for an existing order (with its user and product present, as the
admin table join requires), update_shipment_status appends exactly one new
TrackingEvent — the tracking history of that order grows by exactly one — and
its message contains both the location text X and the status text S; the
order status reported by the admin order listing afterwards is S; and the
whole update is literally the status-field write applied after the
tracking-event append. -/
theorem update_shipment_status_spec (db : DB) (oid : Nat) (X S : String)
    (hX : X ≠ "")
    (o : Order) (ho : o ∈ db.orders) (hoid : o.id = oid)
    (u : User) (hu : db.users.find? (fun x => x.id == o.user_id) = some u)
    (p : Product) (hp : db.products.find? (fun x => x.id == o.product_id) = some p) :
    update_shipment_status db oid X S =
      setOrderStatus (appendTrackingRow db oid (trackingMessage S X)) oid S ∧
    (get_tracking_info (update_shipment_status db oid X S) oid).length =
      (get_tracking_info db oid).length + 1 ∧
    strContains (trackingMessage S X) X = true ∧
    strContains (trackingMessage S X) S = true ∧
    (∃ row ∈ get_all_orders_for_admin (update_shipment_status db oid X S),
        row.id = oid ∧ row.status = S) ∧
    (∀ row ∈ get_all_orders_for_admin (update_shipment_status db oid X S),
        row.id = oid → row.status = S) := by
  have horders : (update_shipment_status db oid X S).orders =
      db.orders.map (fun x => if x.id = oid then { x with status := S } else x) := rfl
  have husers : (update_shipment_status db oid X S).users = db.users := rfl
  have hprods : (update_shipment_status db oid X S).products = db.products := rfl
  have htrack : (update_shipment_status db oid X S).tracking =
      db.tracking ++ [⟨db.nextTrackingId, oid, trackingMessage S X, db.clock⟩] := rfl
  refine ⟨rfl, ?_, (trackingMessage_contains S X).1, (trackingMessage_contains S X).2,
    ?_, ?_⟩
  · rw [get_tracking_info_length, get_tracking_info_length, htrack,
      List.filter_append]
    simp
  · refine ⟨⟨oid, u.username, p.name, o.destination_city, o.quantity_barrels,
      o.order_date, S⟩, ?_, rfl, rfl⟩
    unfold get_all_orders_for_admin
    rw [List.mem_insertionSort]
    apply List.mem_filterMap.mpr
    refine ⟨{ o with status := S }, ?_, ?_⟩
    · rw [horders]
      exact List.mem_map.mpr ⟨o, ho, by simp [hoid]⟩
    · rw [husers, hprods]
      simp only []
      rw [show ({ o with status := S } : Order).user_id = o.user_id from rfl,
        show ({ o with status := S } : Order).product_id = o.product_id from rfl,
        hu, hp]
      simp [hoid]
  · intro row hrow hid
    unfold get_all_orders_for_admin at hrow
    rw [List.mem_insertionSort] at hrow
    rcases List.mem_filterMap.mp hrow with ⟨o2, ho2, hfo2⟩
    rw [horders] at ho2
    rcases List.mem_map.mp ho2 with ⟨o3, ho3, heq⟩
    rw [husers, hprods] at hfo2
    cases hfu : db.users.find? (fun x => x.id == o2.user_id) with
    | none => rw [hfu] at hfo2; exact absurd hfo2 (by simp)
    | some u2 =>
      cases hfp : db.products.find? (fun x => x.id == o2.product_id) with
      | none => rw [hfu, hfp] at hfo2; exact absurd hfo2 (by simp)
      | some p2 =>
        rw [hfu, hfp] at hfo2
        have hrowfields := Option.some.inj hfo2
        have hrid : row.id = o2.id := by rw [← hrowfields]
        have hrst : row.status = o2.status := by rw [← hrowfields]
        by_cases hc : o3.id = oid
        · have : o2 = { o3 with status := S } := by rw [← heq, if_pos hc]
          rw [hrst, this]
        · have : o2 = o3 := by rw [← heq, if_neg hc]
          rw [this] at hrid
          exact absurd (hid ▸ hrid.symm) hc

set_option maxRecDepth 8192 in
/-- Witness for C2 at a concrete state: updating order 1 of dbO to
"In Transit" with location "Suez". -/
theorem update_shipment_status_spec_witness :
    (("Suez" : String) ≠ "" ∧ orderO ∈ dbO.orders ∧ orderO.id = 1 ∧
      dbO.users.find? (fun x => x.id == orderO.user_id) = some aliceU ∧
      dbO.products.find? (fun x => x.id == orderO.product_id) = some brentP) ∧
    (update_shipment_status dbO 1 "Suez" "In Transit" =
        setOrderStatus (appendTrackingRow dbO 1 (trackingMessage "In Transit" "Suez"))
          1 "In Transit" ∧
      (get_tracking_info (update_shipment_status dbO 1 "Suez" "In Transit") 1).length =
        (get_tracking_info dbO 1).length + 1 ∧
      strContains (trackingMessage "In Transit" "Suez") "Suez" = true ∧
      strContains (trackingMessage "In Transit" "Suez") "In Transit" = true ∧
      (∃ row ∈ get_all_orders_for_admin (update_shipment_status dbO 1 "Suez" "In Transit"),
          row.id = 1 ∧ row.status = "In Transit") ∧
      (∀ row ∈ get_all_orders_for_admin (update_shipment_status dbO 1 "Suez" "In Transit"),
          row.id = 1 → row.status = "In Transit")) :=
  ⟨⟨by decide, by decide, by decide, by decide, by decide⟩,
    update_shipment_status_spec dbO 1 "Suez" "In Transit" (by decide) orderO (by decide)
      (by decide) aliceU (by decide) brentP (by decide)⟩

/-- C9: calling update_shipment_status with an order id that matches no
existing Order raises no error (the function is total and returns a state):
the UPDATE matches zero rows, so every existing order — in particular its
status — is unchanged, while a TrackingEvent carrying the dangling order_id
is still appended. -/
theorem update_shipment_status_missing_order (db : DB) (oid : Nat)
    (X S : String) (h : ∀ o ∈ db.orders, o.id ≠ oid) :
    (update_shipment_status db oid X S).orders = db.orders ∧
    (update_shipment_status db oid X S).tracking =
      db.tracking ++ [⟨db.nextTrackingId, oid, trackingMessage S X, db.clock⟩] := by
  refine ⟨?_, rfl⟩
  show db.orders.map (fun x => if x.id = oid then { x with status := S } else x) =
    db.orders
  exact list_map_eq_self _ _ (fun o ho => if_neg (h o ho))

set_option maxRecDepth 8192 in
/-- Witness for C9 at a concrete state: order id 99 exists nowhere in dbO. -/
theorem update_shipment_status_missing_order_witness :
    (∀ o ∈ dbO.orders, o.id ≠ 99) ∧
    ((update_shipment_status dbO 99 "Lost" "Delayed").orders = dbO.orders ∧
      (update_shipment_status dbO 99 "Lost" "Delayed").tracking =
        dbO.tracking ++ [⟨dbO.nextTrackingId, 99, trackingMessage "Delayed" "Lost",
          dbO.clock⟩]) :=
  ⟨by decide, update_shipment_status_missing_order dbO 99 "Lost" "Delayed" (by decide)⟩

set_option maxRecDepth 8192 in
/-- C5 counterexample: place_order itself performs no input validation —
calling it directly with an empty destination and quantity 50 (below the
stated minimum of 100) still inserts an Order row. -/
theorem place_order_no_validation_counterexample :
    (place_order db0 1 1 "" 50).1.orders.length = db0.orders.length + 1 := by
  decide

/-- C5 (amended): validation lives in the customer portal, not in place_order.
The portal quantity widget only produces quantities of at least 100
(st.number_input, min_value=100), and the submit handler rejects an empty
destination without inserting anything; with a non-empty destination it calls
place_order, inserting an Order whose quantity is at least 100 and whose
destination is non-empty. -/
theorem customer_portal_order_validation (db : DB) (uid pid : Nat)
    (dest : String) (qty : Int) (hq : 100 ≤ qty) :
    (dest = "" → customer_portal_place_order db uid pid dest qty = (db, none)) ∧
    (dest ≠ "" →
      customer_portal_place_order db uid pid dest qty =
        ((place_order db uid pid dest qty).1, some db.nextOrderId) ∧
      ∃ o ∈ (customer_portal_place_order db uid pid dest qty).1.orders,
        o.id = db.nextOrderId ∧ o.destination_city = dest ∧
        o.quantity_barrels = qty ∧ 100 ≤ o.quantity_barrels ∧
        o.destination_city ≠ "") := by
  constructor
  · intro h
    simp [customer_portal_place_order, h]
  · intro h
    refine ⟨by simp [customer_portal_place_order, h, place_order], ?_⟩
    refine ⟨⟨db.nextOrderId, uid, pid, dest, qty, db.clock, "Placed"⟩, ?_,
      rfl, rfl, rfl, hq, h⟩
    simp [customer_portal_place_order, h, place_order]

set_option maxRecDepth 8192 in
/-- Witness for C5 (amended) at a concrete state: ordering 500 barrels to
Rotterdam through the portal. -/
theorem customer_portal_order_validation_witness :
    (100 : Int) ≤ 500 ∧
    ((("Rotterdam" : String) = "" →
        customer_portal_place_order dbA 2 1 "Rotterdam" 500 = (dbA, none)) ∧
      (("Rotterdam" : String) ≠ "" →
        customer_portal_place_order dbA 2 1 "Rotterdam" 500 =
          ((place_order dbA 2 1 "Rotterdam" 500).1, some dbA.nextOrderId) ∧
        ∃ o ∈ (customer_portal_place_order dbA 2 1 "Rotterdam" 500).1.orders,
          o.id = dbA.nextOrderId ∧ o.destination_city = "Rotterdam" ∧
          o.quantity_barrels = 500 ∧ (100 : Int) ≤ o.quantity_barrels ∧
          o.destination_city ≠ "")) :=
  ⟨by decide, customer_portal_order_validation dbA 2 1 "Rotterdam" 500 (by decide)⟩

/-- C6: round-trip — an Order placed for user uid shows up in that user's
order listing with the matching product name, destination, quantity and
status, and in no other user's listing.  Hypotheses: the product referenced
by the order exists (the listing is an inner join on products) and no
existing order already carries the id about to be assigned (AUTOINCREMENT
freshness). -/
theorem place_order_roundtrip (db : DB) (uid pid : Nat) (dest : String)
    (qty : Int) (p : Product)
    (hp : db.products.find? (fun x => x.id == pid) = some p)
    (hfresh : ∀ o ∈ db.orders, o.id ≠ db.nextOrderId) :
    (∃ row ∈ get_user_orders (place_order db uid pid dest qty).1 uid,
        row.id = (place_order db uid pid dest qty).2 ∧
        row.product_name = p.name ∧ row.destination_city = dest ∧
        row.quantity_barrels = qty ∧ row.status = "Placed") ∧
    (∀ v, v ≠ uid → ∀ row ∈ get_user_orders (place_order db uid pid dest qty).1 v,
        row.id ≠ (place_order db uid pid dest qty).2) := by
  have horders : (place_order db uid pid dest qty).1.orders =
      db.orders ++ [⟨db.nextOrderId, uid, pid, dest, qty, db.clock, "Placed"⟩] := rfl
  have hprods : (place_order db uid pid dest qty).1.products = db.products := rfl
  have hret : (place_order db uid pid dest qty).2 = db.nextOrderId := rfl
  constructor
  · refine ⟨⟨db.nextOrderId, p.name, dest, qty, db.clock, "Placed"⟩, ?_,
      hret.symm, rfl, rfl, rfl, rfl⟩
    unfold get_user_orders
    rw [List.mem_insertionSort]
    apply List.mem_filterMap.mpr
    refine ⟨⟨db.nextOrderId, uid, pid, dest, qty, db.clock, "Placed"⟩, ?_, ?_⟩
    · rw [horders]
      exact List.mem_append.mpr (Or.inr (List.mem_singleton.mpr rfl))
    · rw [hprods]
      simp [hp]
  · intro v hv row hrow
    unfold get_user_orders at hrow
    rw [List.mem_insertionSort] at hrow
    rcases List.mem_filterMap.mp hrow with ⟨o2, ho2, hsome⟩
    by_cases huv : o2.user_id = v
    · rw [if_pos huv, hprods] at hsome
      cases hfp : db.products.find? (fun x => x.id == o2.product_id) with
      | none => rw [hfp] at hsome; exact absurd hsome (by simp)
      | some p2 =>
        rw [hfp] at hsome
        have hid : row.id = o2.id := by
          have := Option.some.inj hsome
          rw [← this]
        rw [horders] at ho2
        rcases List.mem_append.mp ho2 with h1 | h1
        · rw [hret, hid]
          exact hfresh o2 h1
        · rcases List.mem_singleton.mp h1 with rfl
          exact absurd huv.symm hv
    · rw [if_neg huv] at hsome
      exact absurd hsome (by simp)

set_option maxRecDepth 8192 in
/-- Witness for C6 at a concrete state: alice's Rotterdam order is listed for
user 2 (alice) and for nobody else. -/
theorem place_order_roundtrip_witness :
    dbA.products.find? (fun x => x.id == 1) = some brentP ∧
    (∀ o ∈ dbA.orders, o.id ≠ dbA.nextOrderId) ∧
    ((∃ row ∈ get_user_orders (place_order dbA 2 1 "Rotterdam" 500).1 2,
        row.id = (place_order dbA 2 1 "Rotterdam" 500).2 ∧
        row.product_name = brentP.name ∧ row.destination_city = "Rotterdam" ∧
        row.quantity_barrels = 500 ∧ row.status = "Placed") ∧
      (∀ v, v ≠ 2 → ∀ row ∈ get_user_orders (place_order dbA 2 1 "Rotterdam" 500).1 v,
          row.id ≠ (place_order dbA 2 1 "Rotterdam" 500).2)) :=
  ⟨by decide, by decide,
    place_order_roundtrip dbA 2 1 "Rotterdam" 500 brentP (by decide) (by decide)⟩
theorem seedProductsIfEmpty_users (db : DB) :
    (seedProductsIfEmpty db).users = db.users := by
  unfold seedProductsIfEmpty
  split <;> rfl

theorem seedProductsIfEmpty_nextUserId (db : DB) :
    (seedProductsIfEmpty db).nextUserId = db.nextUserId := by
  unfold seedProductsIfEmpty
  split <;> rfl

theorem seedAdminIfMissing_products (db : DB) (s : Nat) :
    (seedAdminIfMissing db s).products = db.products := by
  unfold seedAdminIfMissing
  split <;> rfl

theorem setup_database_products_ne_zero (db : DB) (s : Nat) :
    (setup_database db s).products.length ≠ 0 := by
  unfold setup_database
  rw [seedAdminIfMissing_products]
  unfold seedProductsIfEmpty
  by_cases hp : db.products.length = 0
  · rw [if_pos hp]
    show (db.products ++ seedProducts db.nextProductId).length ≠ 0
    rw [List.length_append, hp]
    simp [seedProducts]
  · rw [if_neg hp]
    exact hp

theorem setup_database_admin_ne_zero (db : DB) (s : Nat) :
    ((setup_database db s).users.filter
      (fun u => u.username == "admin")).length ≠ 0 := by
  unfold setup_database seedAdminIfMissing
  by_cases ha : ((seedProductsIfEmpty db).users.filter
      (fun u => u.username == "admin")).length = 0
  · rw [if_pos ha]
    show (((seedProductsIfEmpty db).users ++
        ([⟨(seedProductsIfEmpty db).nextUserId, "admin",
          hash_password "admin123" s, "admin"⟩] : List User)).filter
        (fun u => u.username == "admin")).length ≠ 0
    rw [List.filter_append, List.length_append, ha]
    simp
  · rw [if_neg ha]
    exact ha

theorem setup_database_noop (db : DB) (s : Nat)
    (h1 : db.products.length ≠ 0)
    (h2 : (db.users.filter (fun u => u.username == "admin")).length ≠ 0) :
    setup_database db s = db := by
  unfold setup_database
  have e1 : seedProductsIfEmpty db = db := by
    unfold seedProductsIfEmpty
    rw [if_neg h1]
  rw [e1]
  unfold seedAdminIfMissing
  rw [if_neg h2]

/-- C7: startup seeding is idempotent — running setup_database on the result
of setup_database changes nothing — and it seeds the three reference products
exactly when the products table is empty, and the single admin account
exactly when no user named "admin" exists, leaving the tables untouched
otherwise. -/
theorem setup_database_idempotent (db : DB) (s1 s2 : Nat) :
    setup_database (setup_database db s1) s2 = setup_database db s1 ∧
    (db.products = [] →
      (setup_database db s1).products = seedProducts db.nextProductId) ∧
    (db.products ≠ [] → (setup_database db s1).products = db.products) ∧
    ((db.users.filter (fun u => u.username == "admin")).length = 0 →
      (setup_database db s1).users = db.users ++
        [⟨db.nextUserId, "admin", hash_password "admin123" s1, "admin"⟩]) ∧
    ((db.users.filter (fun u => u.username == "admin")).length ≠ 0 →
      (setup_database db s1).users = db.users) := by
  refine ⟨setup_database_noop _ s2 (setup_database_products_ne_zero db s1)
      (setup_database_admin_ne_zero db s1), ?_, ?_, ?_, ?_⟩
  · intro h
    unfold setup_database
    rw [seedAdminIfMissing_products]
    unfold seedProductsIfEmpty
    rw [if_pos (by rw [h]; rfl)]
    show db.products ++ seedProducts db.nextProductId = seedProducts db.nextProductId
    rw [h, List.nil_append]
  · intro h
    unfold setup_database
    rw [seedAdminIfMissing_products]
    unfold seedProductsIfEmpty
    rw [if_neg (by simpa using h)]
  · intro h
    unfold setup_database seedAdminIfMissing
    rw [seedProductsIfEmpty_users, if_pos h]
    show db.users ++
        [⟨(seedProductsIfEmpty db).nextUserId, "admin",
          hash_password "admin123" s1, "admin"⟩] = _
    rw [seedProductsIfEmpty_nextUserId]
  · intro h
    unfold setup_database seedAdminIfMissing
    rw [seedProductsIfEmpty_users, if_neg h]
    exact seedProductsIfEmpty_users db

/-- Witness for C7 at a concrete state: setting up a fresh database twice
equals setting it up once, and the fresh run seeds the products and admin. -/
theorem setup_database_idempotent_witness :
    setup_database (setup_database emptyDB 0) 0 = setup_database emptyDB 0 ∧
    (setup_database emptyDB 0).products = seedProducts emptyDB.nextProductId ∧
    (setup_database emptyDB 0).users = emptyDB.users ++
      [⟨emptyDB.nextUserId, "admin", hash_password "admin123" 0, "admin"⟩] :=
  ⟨(setup_database_idempotent emptyDB 0 0).1,
    (setup_database_idempotent emptyDB 0 0).2.1 (by decide),
    (setup_database_idempotent emptyDB 0 0).2.2.2.1 (by decide)⟩

theorem analytics_mem (db : DB) (n : String)
    (hn : n ∈ (joinedViewNames db).dedup) :
    (n, (joinedViewNames db).count n) ∈ get_product_interaction_analytics db := by
  unfold get_product_interaction_analytics
  rw [List.mem_insertionSort]
  exact List.mem_map.mpr ⟨n, hn, rfl⟩

theorem analytics_sorted (db : DB) :
    (get_product_interaction_analytics db).Sorted
      (keyDesc (fun r : String × Nat => r.2)) := by
  unfold get_product_interaction_analytics
  exact List.sorted_insertionSort _ _

/-- C8: the analytics listing is ordered by view count descending — for any
two products P and Q whose names group N and M joined view rows respectively,
with N > M ≥ 1, the entry (P.name, N) appears strictly before the entry
(Q.name, M).  (M ≥ 1 is needed: the SQL inner join drops products with zero
views entirely, see the counterexample.) -/
theorem analytics_orders_by_count_desc (db : DB) (P Q : Product) (N M : Nat)
    (hP : P ∈ db.products) (hQ : Q ∈ db.products) (hname : P.name ≠ Q.name)
    (hN : (joinedViewNames db).count P.name = N)
    (hM : (joinedViewNames db).count Q.name = M)
    (hM1 : 1 ≤ M) (hNM : M < N) :
    ∃ i j : Fin (get_product_interaction_analytics db).length,
      i < j ∧ (get_product_interaction_analytics db).get i = (P.name, N) ∧
      (get_product_interaction_analytics db).get j = (Q.name, M) := by
  have hPmem : (P.name, N) ∈ get_product_interaction_analytics db := by
    rw [← hN]
    refine analytics_mem db P.name (List.mem_dedup.mpr ?_)
    rw [← List.count_pos_iff, hN]
    omega
  have hQmem : (Q.name, M) ∈ get_product_interaction_analytics db := by
    rw [← hM]
    refine analytics_mem db Q.name (List.mem_dedup.mpr ?_)
    rw [← List.count_pos_iff, hM]
    omega
  rcases List.mem_iff_get.mp hPmem with ⟨i, hi⟩
  rcases List.mem_iff_get.mp hQmem with ⟨j, hj⟩
  refine ⟨i, j, ?_, hi, hj⟩
  rcases lt_trichotomy i j with h | h | h
  · exact h
  · exfalso
    rw [h, hj] at hi
    exact hname (congrArg Prod.fst hi).symm
  · exfalso
    have := (analytics_sorted db).rel_get_of_lt h
    rw [hi, hj] at this
    have : N ≤ M := this
    omega

set_option maxRecDepth 8192 in
/-- C8 counterexample: with one recorded view of Brent Crude (product 1) and
none of WTI Crude (product 2), the claim instance N = 1 > M = 0 fails — the
inner join drops the zero-view product, so WTI Crude is not listed at all,
let alone with count 0. -/
theorem analytics_zero_view_counterexample :
    (joinedViewNames (log_product_interaction dbO 2 1)).count "Brent Crude" = 1 ∧
    (joinedViewNames (log_product_interaction dbO 2 1)).count "WTI Crude" = 0 ∧
    get_product_interaction_analytics (log_product_interaction dbO 2 1) =
      [("Brent Crude", 1)] ∧
    (∀ r ∈ get_product_interaction_analytics (log_product_interaction dbO 2 1),
      r.1 ≠ "WTI Crude") := by
  decide

set_option maxRecDepth 8192 in
/-- Witness for C8 at a concrete state: two views of Brent Crude and one of
WTI Crude list Brent (count 2) strictly before WTI (count 1). -/
theorem analytics_orders_by_count_desc_witness :
    (brentP ∈ dbV.products ∧ wtiP ∈ dbV.products ∧ brentP.name ≠ wtiP.name ∧
      (joinedViewNames dbV).count brentP.name = 2 ∧
      (joinedViewNames dbV).count wtiP.name = 1 ∧ 1 ≤ 1 ∧ 1 < 2) ∧
    (∃ i j : Fin (get_product_interaction_analytics dbV).length,
      i < j ∧ (get_product_interaction_analytics dbV).get i = (brentP.name, 2) ∧
      (get_product_interaction_analytics dbV).get j = (wtiP.name, 1)) :=
  ⟨⟨by decide, by decide, by decide, by decide, by decide, by decide, by decide⟩,
    analytics_orders_by_count_desc dbV brentP wtiP 2 1 (by decide) (by decide)
      (by decide) (by decide) (by decide) (by decide) (by decide)⟩

/-- C10: every user created through the public registration surface gets role
"customer" (the form never supplies a role, so register_user defaults it), so
after any sequence of registrations starting from a freshly seeded database,
the only user with role "admin" is the seeded "admin" account. -/
theorem registration_only_creates_customers (s0 : Nat) (db : DB)
    (h : Relation.ReflTransGen RegStep (setup_database emptyDB s0) db) :
    ∀ u ∈ db.users, u.role = "admin" → u.username = "admin" := by
  induction h with
  | refl =>
    intro u hu _
    have hbase : (setup_database emptyDB s0).users =
        [⟨1, "admin", hash_password "admin123" s0, "admin"⟩] := rfl
    rw [hbase] at hu
    rcases List.mem_singleton.mp hu with rfl
    rfl
  | @tail b c hsteps hstep ih =>
    rcases hstep with ⟨un, pw, s, rfl⟩
    intro u hu hrole
    unfold portal_register at hu
    by_cases hempty : un = "" ∨ pw = ""
    · rw [if_pos hempty] at hu
      exact ih u hu hrole
    · rw [if_neg hempty] at hu
      unfold register_user at hu
      by_cases hdup : b.users.any (fun x => x.username == un) = true
      · rw [if_pos hdup] at hu
        exact ih u hu hrole
      · rw [if_neg hdup] at hu
        have hu2 : u ∈ b.users ++
            [⟨b.nextUserId, un, hash_password pw s, "customer"⟩] := hu
        rcases List.mem_append.mp hu2 with h1 | h1
        · exact ih u h1 hrole
        · rcases List.mem_singleton.mp h1 with rfl
          have hcust : ("customer" : String) ≠ "admin" := by decide
          exact absurd hrole hcust

/-- Witness for C10 at a concrete state: after one registration ("alice") on
the seeded database, nobody but the seeded admin has role "admin". -/
theorem registration_only_creates_customers_witness :
    ((portal_register (setup_database emptyDB 0) "alice" "pw1" 1).users.all
      (fun u => (u.role != "admin") || (u.username == "admin"))) = true := by
  rw [List.all_eq_true]
  intro u hu
  have h := registration_only_creates_customers 0
    (portal_register (setup_database emptyDB 0) "alice" "pw1" 1)
    (Relation.ReflTransGen.single ⟨"alice", "pw1", 1, rfl⟩) u hu
  by_cases hr : u.role = "admin"
  · simp [h hr]
  · simp [hr]
